import Mathlib

/-!
Shallow embedding of the mesh-loading core of the crystal-caves viewer
(src/crystalcaves.cpp): the classes OBJModel and Model3DS together with
their geometry primitives, the MTL material sub-parser, normal generation,
bounds computation and the material-batched display-list builder.

Modelling conventions:
* C++ float arithmetic is idealized as real arithmetic over ℝ.
* File input is modelled as already-read content: an OBJ file is a list of
  lexed lines, an MTL file a list of lexed lines, a 3DS file a list of
  bytes.  The line lexer (istringstream token splitting and the slash
  grammar of face corner tokens, lines 396-446) is abstracted into the
  line datatypes; everything from index resolution onward is translated
  statement by statement from the source.
* OpenGL calls are modelled as an emitted command list (GLCmd); a display
  list is the list of commands compiled into it.
* Unchecked std::vector indexing (undefined behaviour when out of range
  in C++) is modelled by total access functions returning a default value
  out of range, and writes out of range are dropped.
-/

namespace CrystalCaves

noncomputable section

/-- Vector3 (crystalcaves.cpp lines 247-268): three floats with add, sub,
scalar multiply, cross product, length and normalization.  The method
normalized returns the zero vector when the length is not positive. -/
@[ext]
structure Vector3 where
  x : ℝ
  y : ℝ
  z : ℝ

/-- Default constructor Vector3() (line 250). -/
def Vector3.zero : Vector3 := ⟨0, 0, 0⟩

instance : Zero Vector3 := ⟨Vector3.zero⟩

/-- operator+ (line 253). -/
def Vector3.add (a b : Vector3) : Vector3 := ⟨a.x + b.x, a.y + b.y, a.z + b.z⟩

instance : Add Vector3 := ⟨Vector3.add⟩

/-- operator- (line 254). -/
def Vector3.sub (a b : Vector3) : Vector3 := ⟨a.x - b.x, a.y - b.y, a.z - b.z⟩

instance : Sub Vector3 := ⟨Vector3.sub⟩

/-- operator* with a scalar (line 255). -/
def Vector3.smul (a : Vector3) (s : ℝ) : Vector3 := ⟨a.x * s, a.y * s, a.z * s⟩

/-- cross (lines 257-259). -/
def Vector3.cross (a b : Vector3) : Vector3 :=
  ⟨a.y * b.z - a.z * b.y, a.z * b.x - a.x * b.z, a.x * b.y - a.y * b.x⟩

/-- length (line 261). -/
def Vector3.length (a : Vector3) : ℝ :=
  Real.sqrt (a.x * a.x + a.y * a.y + a.z * a.z)

/-- normalized (lines 263-267): divide by the length when it is positive,
otherwise return the zero vector. -/
def Vector3.normalized (a : Vector3) : Vector3 :=
  if 0 < a.length then ⟨a.x / a.length, a.y / a.length, a.z / a.length⟩ else ⟨0, 0, 0⟩

/-- Vector addition is a commutative monoid (componentwise on ℝ); used to
state sums of accumulated face normals. -/
instance : AddCommMonoid Vector3 where
  add := Vector3.add
  zero := Vector3.zero
  add_assoc a b c := by
    show Vector3.add (Vector3.add a b) c = Vector3.add a (Vector3.add b c)
    simp only [Vector3.add]
    ext <;> ring
  zero_add a := by
    show Vector3.add Vector3.zero a = a
    simp only [Vector3.add, Vector3.zero]
    ext <;> ring
  add_zero a := by
    show Vector3.add a Vector3.zero = a
    simp only [Vector3.add, Vector3.zero]
    ext <;> ring
  add_comm a b := by
    show Vector3.add a b = Vector3.add b a
    simp only [Vector3.add]
    ext <;> ring
  nsmul := nsmulRec

/-- Vector2 (lines 270-274): a texture coordinate. -/
@[ext]
structure Vector2 where
  u : ℝ
  v : ℝ

/-- An RGBA channel quadruple, modelling the C arrays float[4] of Material. -/
@[ext]
structure Color4 where
  r : ℝ
  g : ℝ
  b : ℝ
  a : ℝ

/-- Material (lines 280-296): color channels, shininess, transparency,
texture file name and the texture handle obtained from the loader
(0 = none). -/
structure Material where
  name : String
  ambient : Color4
  diffuse : Color4
  specular : Color4
  emission : Color4
  shininess : ℝ
  transparency : ℝ
  textureFile : String
  textureId : Nat

/-- The Material() default constructor (lines 291-296). -/
def Material.init : Material where
  name := ""
  ambient := ⟨0.2, 0.2, 0.2, 1⟩
  diffuse := ⟨0.8, 0.8, 0.8, 1⟩
  specular := ⟨1, 1, 1, 1⟩
  emission := ⟨0, 0, 0, 1⟩
  shininess := 32
  transparency := 1
  textureFile := ""
  textureId := 0

/-- Face (lines 320-325): per-corner index lists plus the material name
active when the face was declared. -/
structure Face where
  vertexIndices : List Int
  texCoordIndices : List Int
  normalIndices : List Int
  materialName : String
deriving DecidableEq

/-- One line of an MTL file after lexing (loadMTL, lines 519-575).  Float
extraction from the stream is abstracted into the constructor payloads;
map_kd additionally carries the texture handle returned by the external
loadTexture call (0 = failed to load).  Lines whose directive is not
recognized are the other constructor. -/
inductive MtlLine where
  | newmtl (nm : String)
  | ka (r g b : ℝ)
  | kd (r g b : ℝ)
  | ks (r g b : ℝ)
  | ke (r g b : ℝ)
  | ns (v : ℝ)
  | d (v : ℝ)
  | tr (v : ℝ)
  | map_kd (path : String) (handle : Nat)
  | other

/-- Insertion into the sorted unique-key association list modelling
std::map of materials; an existing key has its mapped value replaced, as
assignment through operator[] does. -/
def mapInsert (k : String) (v : Material) : List (String × Material) → List (String × Material)
  | [] => [(k, v)]
  | (k', v') :: t =>
    match compare k k' with
    | .lt => (k, v) :: (k', v') :: t
    | .eq => (k, v) :: t
    | .gt => (k', v') :: mapInsert k v t

/-- std::map lookup (find) by key. -/
def mapFind (m : List (String × Material)) (k : String) : Option Material :=
  (m.find? (fun p => p.1 == k)).map Prod.snd

/-- Update the value mapped to an existing key in place, modelling a
mutation through the pointer currentMat into the map. -/
def mapUpdate (k : String) (f : Material → Material) : List (String × Material) → List (String × Material)
  | [] => []
  | (k', v') :: t => if k' == k then (k', f v') :: t else (k', v') :: mapUpdate k f t

/-- Effect of one non-newmtl MTL line on the current material
(loadMTL, lines 535-574).  Ka, Kd, Ks, Ke overwrite the RGB channels and
leave alpha untouched; Ns rescales shininess from the 0-1000 domain to
0-128 with a clamp; d sets transparency directly while Tr sets 1 - value,
both writing the result into the diffuse and ambient alpha channels;
map_Kd records the texture file and the handle from the texture loader. -/
def mtlApply (line : MtlLine) (m : Material) : Material :=
  match line with
  | .ka r g b => { m with ambient := { m.ambient with r := r, g := g, b := b } }
  | .kd r g b => { m with diffuse := { m.diffuse with r := r, g := g, b := b } }
  | .ks r g b => { m with specular := { m.specular with r := r, g := g, b := b } }
  | .ke r g b => { m with emission := { m.emission with r := r, g := g, b := b } }
  | .ns v => { m with shininess := min (v * 128 / 1000) 128 }
  | .d v =>
    { m with transparency := v,
             diffuse := { m.diffuse with a := v },
             ambient := { m.ambient with a := v } }
  | .tr v =>
    { m with transparency := 1 - v,
             diffuse := { m.diffuse with a := 1 - v },
             ambient := { m.ambient with a := 1 - v } }
  | .map_kd path handle => { m with textureFile := path, textureId := handle }
  | .newmtl _ => m
  | .other => m

/-- One step of the MTL line loop (lines 519-575).  The state is the
material map plus the key of the current material, if any; newmtl inserts
a fresh default material under its name and makes it current, every other
directive is applied to the current material and is ignored when no
material is current yet. -/
def mtlStep (st : List (String × Material) × Option String) (line : MtlLine) :
    List (String × Material) × Option String :=
  match line with
  | .newmtl nm => (mapInsert nm { Material.init with name := nm } st.1, some nm)
  | l =>
    match st.2 with
    | none => st
    | some nm => (mapUpdate nm (mtlApply l) st.1, some nm)

/-- OBJModel::loadMTL (lines 507-579) on already-read file content,
merging parsed materials into the given map.  The missing-file early
return (lines 508-512) corresponds to not calling this function. -/
def loadMTL (mats : List (String × Material)) (lines : List MtlLine) : List (String × Material) :=
  (lines.foldl mtlStep (mats, none)).1

/-- One face-corner token after the slash-grammar lexing of lines 425-446.
The field v is the parsed vertex index; vt and vn keep the C++ local
initializer 0 when the corresponding slot is absent or empty in the token
(formats v, v/vt, v/vt/vn, v//vn). -/
structure CornerTok where
  v : Int
  vt : Int
  vn : Int
deriving DecidableEq

/-- One line of an OBJ file after lexing (OBJModel::load, lines 390-473).
mtllib carries the content of the referenced MTL file as resolved by the
filesystem, none when the file cannot be opened; unrecognized directives
are the other constructor. -/
inductive ObjLine where
  | v (x y z : ℝ)
  | vn (x y z : ℝ)
  | vt (tu tv : ℝ)
  | f (corners : List CornerTok)
  | mtllib (content : Option (List MtlLine))
  | usemtl (nm : String)
  | other

/-- A recorded OpenGL call inside a display list: glTexCoord2f, glNormal3f,
glVertex3f, or a Material::apply() of a whole material (lines 298-313). -/
inductive GLCmd where
  | applyMat (m : Material)
  | texCoord (t : Vector2)
  | normal (n : Vector3)
  | vertex (p : Vector3)

/-- OBJModel (lines 331-361): geometry lists, face list, material table,
bounds, and the cached display list.  The per-instance transform fields
(position, rotation, scale) and the name string play no part in loading
and are omitted.  The C++ constructor leaves boundingRadius uninitialized;
the model takes the default-zero reading. -/
structure OBJModel where
  vertices : List Vector3
  normals : List Vector3
  texCoords : List Vector2
  faces : List Face
  materials : List (String × Material)
  minBounds : Vector3
  maxBounds : Vector3
  center : Vector3
  boundingRadius : ℝ
  displayList : List GLCmd
  hasDisplayList : Bool
  hasTextures : Bool
  isLoaded : Bool

/-- The OBJModel() constructor (lines 357-361). -/
def OBJModel.init : OBJModel where
  vertices := []
  normals := []
  texCoords := []
  faces := []
  materials := []
  minBounds := 0
  maxBounds := 0
  center := 0
  boundingRadius := 0
  displayList := []
  hasDisplayList := false
  hasTextures := false
  isLoaded := false

/-- Index resolution of a face corner slot (lines 448-452): a negative
index is relative to the current count of the corresponding array and
resolves to count + index + 1; a non-negative index is left as read. -/
def resolveIdx (count : Nat) (i : Int) : Int :=
  if i < 0 then (count : Int) + i + 1 else i

/-- Processing of one corner token inside an f line (lines 424-457):
resolve each slot against the current array sizes of the document being
built, then append the 0-based index (resolved minus one) to the three
per-corner lists of the face under construction. -/
def addCorner (d : OBJModel) (f : Face) (c : CornerTok) : Face :=
  let vIdx := resolveIdx d.vertices.length c.v
  let vtIdx := resolveIdx d.texCoords.length c.vt
  let vnIdx := resolveIdx d.normals.length c.vn
  { f with vertexIndices := f.vertexIndices ++ [vIdx - 1],
           texCoordIndices := f.texCoordIndices ++ [vtIdx - 1],
           normalIndices := f.normalIndices ++ [vnIdx - 1] }

/-- One iteration of the OBJ line loop (lines 390-473).  The state is the
document being built plus the currently active material name.  An f line
builds a face tagged with the active material and stores it only when it
has at least three corners (lines 459-461); mtllib merges the referenced
MTL content into the material map; usemtl replaces the active name. -/
def objStep (st : OBJModel × String) (line : ObjLine) : OBJModel × String :=
  let d := st.1
  match line with
  | .v x y z => ({ d with vertices := d.vertices ++ [⟨x, y, z⟩] }, st.2)
  | .vn x y z => ({ d with normals := d.normals ++ [⟨x, y, z⟩] }, st.2)
  | .vt tu tv => ({ d with texCoords := d.texCoords ++ [⟨tu, tv⟩] }, st.2)
  | .f corners =>
    let f0 : Face := { vertexIndices := [], texCoordIndices := [],
                       normalIndices := [], materialName := st.2 }
    let f := corners.foldl (addCorner d) f0
    if 3 ≤ f.vertexIndices.length then ({ d with faces := d.faces ++ [f] }, st.2)
    else (d, st.2)
  | .mtllib content =>
    match content with
    | some ls => ({ d with materials := loadMTL d.materials ls }, st.2)
    | none => (d, st.2)
  | .usemtl nm => (d, nm)
  | .other => st

/-- One iteration of the bounds loop (lines 587-594): expand the running
min and max corners componentwise by one vertex. -/
def boundsStep (p : Vector3 × Vector3) (v : Vector3) : Vector3 × Vector3 :=
  (⟨min p.1.x v.x, min p.1.y v.y, min p.1.z v.z⟩,
   ⟨max p.2.x v.x, max p.2.y v.y, max p.2.z v.z⟩)

/-- OBJModel::calculateBounds (lines 582-603): early return on an empty
vertex list; otherwise min and max corners start from the first vertex
and expand over all vertices, the center is the midpoint and the bounding
radius half the length of the box diagonal. -/
def OBJModel.calculateBounds (d : OBJModel) : OBJModel :=
  if d.vertices.isEmpty then d
  else
    let v0 := d.vertices.getD 0 0
    let mm := d.vertices.foldl boundsStep (v0, v0)
    { d with minBounds := mm.1, maxBounds := mm.2,
             center := ⟨(mm.1.x + mm.2.x) / 2, (mm.1.y + mm.2.y) / 2, (mm.1.z + mm.2.z) / 2⟩,
             boundingRadius := (mm.2 - mm.1).length / 2 }

/-- Unchecked read vertices[i] with an int index; out of range is
undefined behaviour in the C++ and is modelled as the zero vector. -/
def vecAt (l : List Vector3) (i : Int) : Vector3 :=
  if 0 ≤ i then l.getD i.toNat 0 else 0

/-- Unchecked write normals[i] = v; out of range is undefined behaviour
in the C++ and is modelled as a dropped write. -/
def setVec (l : List Vector3) (i : Int) (v : Vector3) : List Vector3 :=
  if 0 ≤ i then l.set i.toNat v else l

/-- std::vector::resize(n, fill): keep the first n elements and pad with
the fill value (here the zero vector) up to length n. -/
def resizeVec (l : List Vector3) (n : Nat) : List Vector3 :=
  l.take n ++ List.replicate (n - l.length) 0

/-- The face normal of generateNormals (lines 612-619): from the first
three corners' vertex positions v0, v1, v2, normalize the cross product
of the edges v1 - v0 and v2 - v0. -/
def faceNormal (vs : List Vector3) (f : Face) : Vector3 :=
  let v0 := vecAt vs (f.vertexIndices.getD 0 0)
  let v1 := vecAt vs (f.vertexIndices.getD 1 0)
  let v2 := vecAt vs (f.vertexIndices.getD 2 0)
  ((v1.sub v0).cross (v2.sub v0)).normalized

/-- Accumulation of one face into the normal array (lines 609-625): skip
faces with fewer than three corners, then add the face normal into the
accumulator of every vertex index the face references. -/
def accumFace (vs : List Vector3) (ns : List Vector3) (f : Face) : List Vector3 :=
  if f.vertexIndices.length < 3 then ns
  else
    let fn := faceNormal vs f
    f.vertexIndices.foldl (fun ns' idx => setVec ns' idx ((vecAt ns' idx).add fn)) ns

/-- OBJModel::generateNormals (lines 606-636): resize the normal list to
the vertex count with zero fill, accumulate every face's normal into the
entries of all its referenced vertex indices, normalize every entry in
place, and rewrite every face's normal-index list to its vertex-index
list. -/
def OBJModel.generateNormals (d : OBJModel) : OBJModel :=
  let ns0 := resizeVec d.normals d.vertices.length
  let ns1 := d.faces.foldl (accumFace d.vertices) ns0
  { d with normals := ns1.map Vector3.normalized,
           faces := d.faces.map (fun f => { f with normalIndices := f.vertexIndices }) }

/-- Sorted insertion of a material name into the key list of the
std::map grouping facesByMaterial (line 644); a present key is kept
once. -/
def insertName (nm : String) : List String → List String
  | [] => [nm]
  | m :: t =>
    match compare nm m with
    | .lt => nm :: m :: t
    | .eq => m :: t
    | .gt => m :: insertName nm t

/-- The sorted distinct material names of the face list, i.e. the
iteration order of the std::map built at lines 644-647. -/
def groupNames (faces : List Face) : List String :=
  faces.foldl (fun acc f => insertName f.materialName acc) []

/-- The faces grouped under one material name, in face-list order
(lines 644-647). -/
def facesFor (faces : List Face) (nm : String) : List Face :=
  faces.filter (fun f => f.materialName == nm)

/-- Material application at the head of a group (lines 651-657): a
nonempty name found in the material map is applied, otherwise nothing is
emitted. -/
def resolveMat (mats : List (String × Material)) (nm : String) : List GLCmd :=
  if nm = "" then []
  else
    match mapFind mats nm with
    | some m => [GLCmd.applyMat m]
    | none => []

/-- Emission of one face corner (lines 666-678 and the two copies that
follow): the texcoord, normal and vertex attributes are each emitted only
when the corresponding index is in [0, array size); an out-of-range index
contributes nothing. -/
def emitCorner (d : OBJModel) (f : Face) (k : Nat) : List GLCmd :=
  let vIdx := f.vertexIndices.getD k (-1)
  let nIdx := f.normalIndices.getD k (-1)
  let tIdx := f.texCoordIndices.getD k (-1)
  (if 0 ≤ tIdx ∧ tIdx < (d.texCoords.length : Int) then
    [GLCmd.texCoord (d.texCoords.getD tIdx.toNat ⟨0, 0⟩)] else []) ++
  (if 0 ≤ nIdx ∧ nIdx < (d.normals.length : Int) then
    [GLCmd.normal (d.normals.getD nIdx.toNat 0)] else []) ++
  (if 0 ≤ vIdx ∧ vIdx < (d.vertices.length : Int) then
    [GLCmd.vertex (d.vertices.getD vIdx.toNat 0)] else [])

/-- Fan triangulation of one face (lines 662-707): faces with fewer than
three corners are skipped; otherwise for i from 1 to corner count minus 2
the corners 0, i, i+1 are emitted. -/
def emitFace (d : OBJModel) (f : Face) : List GLCmd :=
  if f.vertexIndices.length < 3 then []
  else
    ((List.range' 1 (f.vertexIndices.length - 2)).map (fun i =>
      emitCorner d f 0 ++ emitCorner d f i ++ emitCorner d f (i + 1))).flatten

/-- The full command stream of createDisplayList (lines 643-710): for each
material group in map order, the optional material application followed by
the triangles of all its faces. -/
def buildBatch (d : OBJModel) : List GLCmd :=
  ((groupNames d.faces).map (fun nm =>
    resolveMat d.materials nm ++ ((facesFor d.faces nm).map (emitFace d)).flatten)).flatten

/-- OBJModel::createDisplayList (lines 639-717): compile the batched
command stream into the display list and mark it present. -/
def OBJModel.createDisplayList (d : OBJModel) : OBJModel :=
  { d with displayList := buildBatch d, hasDisplayList := true }

/-- OBJModel::load (lines 370-504) on already-read file content: fold the
line loop from an empty document and no active material, then compute
bounds, generate normals only when none were parsed, scan the material
map for a loaded texture, compile the display list, and mark the document
loaded.  The early return on an unopenable file (lines 371-375)
corresponds to not calling this function. -/
def OBJModel.load (lines : List ObjLine) : OBJModel :=
  let d0 := (lines.foldl objStep (OBJModel.init, "")).1
  let d1 := d0.calculateBounds
  let d2 := if d1.normals.isEmpty then d1.generateNormals else d1
  let d3 := { d2 with hasTextures := d2.materials.any (fun p => p.2.textureId != 0) }
  let d4 := d3.createDisplayList
  { d4 with isLoaded := true }

/-- 3DS chunk id MAIN3DS (line 933). -/
def MAIN3DS : Nat := 0x4D4D

/-- 3DS chunk id EDIT3DS (line 934). -/
def EDIT3DS : Nat := 0x3D3D

/-- 3DS chunk id EDIT_OBJECT (line 935). -/
def EDIT_OBJECT : Nat := 0x4000

/-- 3DS chunk id OBJ_TRIMESH (line 936). -/
def OBJ_TRIMESH : Nat := 0x4100

/-- 3DS chunk id TRI_VERTEXL (line 937). -/
def TRI_VERTEXL : Nat := 0x4110

/-- 3DS chunk id TRI_FACEL (line 938). -/
def TRI_FACEL : Nat := 0x4120

/-- 3DS chunk id TRI_MAPCOORD (line 939). -/
def TRI_MAPCOORD : Nat := 0x4140

/-- One byte of the 3DS file; a read past the end of a C++ ifstream
leaves the destination unchanged, modelled as reading 0. -/
def byteAt (data : List Nat) (i : Nat) : Nat := data.getD i 0

/-- Model3DS::readShort (lines 969-973): a little-endian 16-bit unsigned
read at the given position. -/
def readShortAt (data : List Nat) (pos : Nat) : Nat :=
  byteAt data pos + 256 * byteAt data (pos + 1)

/-- Model3DS::readInt (lines 975-979): a little-endian 32-bit unsigned
read at the given position. -/
def readIntAt (data : List Nat) (pos : Nat) : Nat :=
  byteAt data pos + 256 * byteAt data (pos + 1) +
    65536 * byteAt data (pos + 2) + 16777216 * byteAt data (pos + 3)

/-- Model3DS::readFloat (lines 981-985) up to the IEEE-754 bit decoding,
which is abstracted: the 32-bit pattern is read little-endian and handed
to a decoding function supplied to the parser. -/
def readFloatBitsAt (data : List Nat) (pos : Nat) : Nat := readIntAt data pos

/-- The length of the null-terminated string read by Model3DS::readString
(lines 987-994) starting at the given position. -/
def strLenAt (data : List Nat) (pos : Nat) : Nat :=
  ((data.drop pos).takeWhile (fun b => b ≠ 0)).length

/-- The stream position after Model3DS::readString: past the string and
its terminator when the terminator was inside the file. -/
def skipStringAt (data : List Nat) (pos : Nat) : Nat :=
  let l := strLenAt data pos
  if pos + l < data.length then pos + l + 1 else pos + l

/-- Model3DS (lines 941-961): vertex list, positional UV list, triangular
faces as bare index triples, the running Y and Z extrema tracked while
reading vertices, and the display-list cache.  Transform fields and the
name are omitted as in the OBJModel embedding. -/
structure Model3DS where
  vertices : List Vector3
  texCoords : List (ℝ × ℝ)
  faces : List (List Int)
  minY : ℝ
  maxY : ℝ
  minZ : ℝ
  maxZ : ℝ
  displayList : List GLCmd
  hasDisplayList : Bool
  isLoaded : Bool

/-- The Model3DS() constructor (lines 957-961). -/
def Model3DS.init : Model3DS where
  vertices := []
  texCoords := []
  faces := []
  minY := 0
  maxY := 0
  minZ := 0
  maxZ := 0
  displayList := []
  hasDisplayList := false
  isLoaded := false

/-- The TRI_VERTEXL record loop (lines 1032-1051): read count (x, y, z)
float triples, appending vertices and tracking the running Y and Z
extrema, which restart at the first vertex overall. -/
def read3DSVertices (dec : Nat → ℝ) (data : List Nat) :
    Nat → Model3DS → Nat → Model3DS × Nat
  | 0, m, pos => (m, pos)
  | n + 1, m, pos =>
    let y := dec (readFloatBitsAt data (pos + 4))
    let z := dec (readFloatBitsAt data (pos + 8))
    let verts := m.vertices ++ [⟨dec (readFloatBitsAt data pos), y, z⟩]
    let m' :=
      if verts.length = 1 then
        { m with vertices := verts, minY := y, maxY := y, minZ := z, maxZ := z }
      else
        { m with vertices := verts,
                 minY := if y < m.minY then y else m.minY,
                 maxY := if m.maxY < y then y else m.maxY,
                 minZ := if z < m.minZ then z else m.minZ,
                 maxZ := if m.maxZ < z then z else m.maxZ }
    read3DSVertices dec data n m' (pos + 12)

/-- The TRI_MAPCOORD record loop (lines 1054-1063): read count (u, v)
float pairs appended as texture coordinates. -/
def read3DSTexCoords (dec : Nat → ℝ) (data : List Nat) :
    Nat → Model3DS → Nat → Model3DS × Nat
  | 0, m, pos => (m, pos)
  | n + 1, m, pos =>
    let u := dec (readFloatBitsAt data pos)
    let v := dec (readFloatBitsAt data (pos + 4))
    read3DSTexCoords dec data n { m with texCoords := m.texCoords ++ [(u, v)] } (pos + 8)

/-- The TRI_FACEL record loop (lines 1065-1081): read count records of
three 16-bit vertex indices plus a flags field that is read but not
interpreted; each record becomes a three-index face. -/
def read3DSFaces (data : List Nat) : Nat → Model3DS → Nat → Model3DS × Nat
  | 0, m, pos => (m, pos)
  | n + 1, m, pos =>
    let v1 : Int := readShortAt data pos
    let v2 : Int := readShortAt data (pos + 2)
    let v3 : Int := readShortAt data (pos + 4)
    read3DSFaces data n { m with faces := m.faces ++ [[v1, v2, v3]] } (pos + 8)

mutual

/-- Model3DS::processChunk (lines 996-1088) with the stream replaced by a
position into the byte list and recursion bounded by fuel (the C++
recursion has no structural bound; every theorem below is independent of
the fuel).  The chunk end offset currentPos + chunkLength - 6 is computed
in 32-bit unsigned arithmetic as in the source. -/
def processChunk (dec : Nat → ℝ) (data : List Nat) :
    Nat → Model3DS → Nat → Nat → Nat → Model3DS × Nat
  | 0, m, pos, _, _ => (m, pos)
  | fuel + 1, m, pos, chunkID, chunkLength =>
    let endPos := (pos + chunkLength + 4294967296 - 6) % 4294967296
    if chunkID = MAIN3DS ∨ chunkID = EDIT3DS then
      subChunks dec data fuel m pos endPos
    else if chunkID = EDIT_OBJECT then
      subChunks dec data fuel m (skipStringAt data pos) endPos
    else if chunkID = OBJ_TRIMESH then
      subChunks dec data fuel m pos endPos
    else if chunkID = TRI_VERTEXL then
      read3DSVertices dec data (readShortAt data pos) m (pos + 2)
    else if chunkID = TRI_MAPCOORD then
      read3DSTexCoords dec data (readShortAt data pos) m (pos + 2)
    else if chunkID = TRI_FACEL then
      read3DSFaces data (readShortAt data pos) m (pos + 2)
    else
      (m, endPos)

/-- The sub-chunk loop of the container cases (lines 1004-1008,
1015-1019, 1025-1029): while the position is before the parent's end
offset, read a 2-byte tag and 4-byte length and recurse. -/
def subChunks (dec : Nat → ℝ) (data : List Nat) :
    Nat → Model3DS → Nat → Nat → Model3DS × Nat
  | 0, m, pos, _ => (m, pos)
  | fuel + 1, m, pos, endPos =>
    if pos < endPos then
      let subID := readShortAt data pos
      let subLen := readIntAt data (pos + 2)
      let r := processChunk dec data fuel m (pos + 6) subID subLen
      subChunks dec data fuel r.1 r.2 endPos
    else (m, pos)

end

/-- Emission of one triangular 3DS face into the display list
(lines 1131-1162): only faces of exactly three indices are drawn, with a
flat face normal from the cross product of the edges, the positional
texture coordinate of each vertex index when the UV list covers the
vertex list, and the three vertex positions. -/
def Model3DS.faceCmds (m : Model3DS) (hasTexCoords : Bool) (face : List Int) : List GLCmd :=
  if face.length = 3 then
    let v0 := vecAt m.vertices (face.getD 0 0)
    let v1 := vecAt m.vertices (face.getD 1 0)
    let v2 := vecAt m.vertices (face.getD 2 0)
    let nrm := ((v1.sub v0).cross (v2.sub v0)).normalized
    let tc := fun (i : Nat) =>
      if hasTexCoords then
        let p := if 0 ≤ face.getD i 0 then m.texCoords.getD (face.getD i 0).toNat (0, 0) else (0, 0)
        [GLCmd.texCoord ⟨p.1, p.2⟩]
      else []
    [GLCmd.normal nrm] ++ tc 0 ++ [GLCmd.vertex v0] ++ tc 1 ++ [GLCmd.vertex v1] ++
      tc 2 ++ [GLCmd.vertex v2]
  else []

/-- Model3DS::buildDisplayList (lines 1123-1169): an early return when the
model is not loaded or has no vertices or no faces; otherwise the UV list
is used only when it is nonempty and at least as long as the vertex list,
and every three-index face is emitted. -/
def Model3DS.buildDisplayList (m : Model3DS) : Model3DS :=
  if ¬ m.isLoaded ∨ m.vertices.isEmpty ∨ m.faces.isEmpty then m
  else
    let hasTexCoords := ¬ m.texCoords.isEmpty ∧ m.vertices.length ≤ m.texCoords.length
    { m with displayList := (m.faces.map (m.faceCmds hasTexCoords)).flatten,
             hasDisplayList := true }

/-- Model3DS::load (lines 1090-1121) on already-read file content: read
the first chunk header; any leading tag other than MAIN3DS fails
immediately leaving the model untouched; otherwise process the chunk
tree, mark the model loaded, build the display list and report success.
The fuel handed to processChunk exceeds any possible recursion depth on
the given data. -/
def Model3DS.load (dec : Nat → ℝ) (data : List Nat) (m : Model3DS) : Model3DS × Bool :=
  let chunkID := readShortAt data 0
  let chunkLength := readIntAt data 2
  if chunkID ≠ MAIN3DS then (m, false)
  else
    let m' := (processChunk dec data (data.length + 1) m 6 chunkID chunkLength).1
    (Model3DS.buildDisplayList { m' with isLoaded := true }, true)

/-- The list of all int indices at which generateNormals subscripts the
vertex array and the resized normal array: the vertex reads use entries
0, 1 and 2 of each qualifying face's vertex-index list and the normal
read-modify-writes use every entry, so the union over a document is every
entry of every face with at least three corners. -/
def generateNormalsAccesses (d : OBJModel) : List Int :=
  d.faces.foldl
    (fun acc f => if f.vertexIndices.length < 3 then acc else acc ++ f.vertexIndices) []

/-- A face-corner token with only a vertex index (format v). -/
def cornerV (i : Int) : CornerTok := ⟨i, 0, 0⟩

/-- Example input: three v lines followed by the face line f -1 -2 -3
(the negative-index test of the spec). -/
def exNegLines : List ObjLine :=
  [ObjLine.v 0 0 0, ObjLine.v 1 0 0, ObjLine.v 0 1 0,
   ObjLine.f [cornerV (-1), cornerV (-2), cornerV (-3)]]

/-- The face stored by parsing exNegLines, after normal generation has
rewritten its normal-index list. -/
def exNegFace : Face :=
  { vertexIndices := [2, 1, 0], texCoordIndices := [-1, -1, -1],
    normalIndices := [2, 1, 0], materialName := "" }

/-- Example input: a minimal synthetic document with four vertices (the
unit square in the z = 0 plane), one quad face and no vn lines. -/
def exQuadLines : List ObjLine :=
  [ObjLine.v 0 0 0, ObjLine.v 1 0 0, ObjLine.v 1 1 0, ObjLine.v 0 1 0,
   ObjLine.f [cornerV 1, cornerV 2, cornerV 3, cornerV 4]]

/-- The vertex list parsed from exQuadLines. -/
def exQuadVerts : List Vector3 := [⟨0, 0, 0⟩, ⟨1, 0, 0⟩, ⟨1, 1, 0⟩, ⟨0, 1, 0⟩]

/-- The quad face parsed from exQuadLines, before normal generation. -/
def exQuadFace : Face :=
  { vertexIndices := [0, 1, 2, 3], texCoordIndices := [-1, -1, -1, -1],
    normalIndices := [-1, -1, -1, -1], materialName := "" }

/-- A 3DS file that is just a MAIN3DS header with no payload. -/
def exGood3DSData : List Nat := [77, 77, 6, 0, 0, 0]

/-- A five-corner face over vertex indices 0..4 with no texcoord or
normal references. -/
def exPentaFace : Face :=
  { vertexIndices := [0, 1, 2, 3, 4], texCoordIndices := [-1, -1, -1, -1, -1],
    normalIndices := [-1, -1, -1, -1, -1], materialName := "" }

/-- A document holding five distinct vertex positions A, B, C, D, E and
the single five-corner face exPentaFace. -/
def exPentaDoc : OBJModel :=
  { OBJModel.init with
      vertices := [⟨0, 0, 0⟩, ⟨1, 0, 0⟩, ⟨2, 0, 0⟩, ⟨3, 0, 0⟩, ⟨4, 0, 0⟩],
      faces := [exPentaFace] }

/-- A face whose first corner's vertex index 5 is beyond the single-entry
vertex list of exOobDoc and whose other attribute indices are absent. -/
def exOobFace : Face :=
  { vertexIndices := [5, 0, 7], texCoordIndices := [-1, -1, -1],
    normalIndices := [-1, -1, -1], materialName := "" }

/-- A document with one vertex and one face referencing out-of-range
vertex indices. -/
def exOobDoc : OBJModel :=
  { OBJModel.init with vertices := [⟨0, 0, 0⟩], faces := [exOobFace] }

/-- A document with the three vertices of the bounds example of the
spec. -/
def exBoundsDoc : OBJModel :=
  { OBJModel.init with vertices := [⟨0, 0, 0⟩, ⟨2, 0, 0⟩, ⟨0, 2, 0⟩] }

/-- A well-formed document for the normal-generator safety witness: three
vertices and one triangle referencing each exactly once. -/
def exTriDoc : OBJModel :=
  { OBJModel.init with
      vertices := [⟨0, 0, 0⟩, ⟨1, 0, 0⟩, ⟨0, 1, 0⟩],
      faces := [{ vertexIndices := [0, 1, 2], texCoordIndices := [-1, -1, -1],
                  normalIndices := [-1, -1, -1], materialName := "" }] }

/-- Six zero bytes: a 3DS file whose leading tag is 0, not MAIN3DS. -/
def exBad3DSData : List Nat := [0, 0, 0, 0, 0, 0]

/-- A trivial float-bit decoder for concrete 3DS examples. -/
def exDec : Nat → ℝ := fun _ => 0

/-- MTL content: one material followed by a Tr 0.3 line. -/
def exTrLines : List MtlLine := [MtlLine.newmtl "m", MtlLine.tr 0.3]

/-- MTL content: one material followed by a d 0.7 line. -/
def exDLines : List MtlLine := [MtlLine.newmtl "m", MtlLine.d 0.7]

/-! Helper lemmas about the embedded operations. -/

/-- Method-style addition coincides with the monoid addition. -/
theorem vadd_eq (a b : Vector3) : a.add b = a + b := rfl

/-- Subtraction unfolds componentwise. -/
theorem vsub_def (a b : Vector3) : a - b = ⟨a.x - b.x, a.y - b.y, a.z - b.z⟩ := rfl

/-- The unit z vector is a fixed point of normalization. -/
theorem normalized_unitZ : Vector3.normalized ⟨0, 0, 1⟩ = ⟨0, 0, 1⟩ := by
  unfold Vector3.normalized Vector3.length
  norm_num

theorem getD_mem {α : Type} (l : List α) (j : Nat) (dflt : α) (h : j < l.length) :
    l.getD j dflt ∈ l := by
  induction l generalizing j with
  | nil => simp at h
  | cons a t ih =>
    cases j with
    | zero => exact List.mem_cons_self a t
    | succ k => exact List.mem_cons_of_mem a (ih k (by simpa using h))

theorem getD_zero_mem (l : List Vector3) (h : l ≠ []) : l.getD 0 0 ∈ l := by
  cases l with
  | nil => exact absurd rfl h
  | cons a t => exact List.mem_cons_self a t

theorem getD_set_self' {α : Type} (l : List α) (i : Nat) (v dflt : α) (h : i < l.length) :
    (l.set i v).getD i dflt = v := by
  induction l generalizing i with
  | nil => simp at h
  | cons a t ih =>
    cases i with
    | zero => rfl
    | succ k => exact ih k (by simpa using h)

theorem getD_set_ne' {α : Type} (l : List α) (i j : Nat) (v dflt : α) (h : i ≠ j) :
    (l.set i v).getD j dflt = l.getD j dflt := by
  induction l generalizing i j with
  | nil => rfl
  | cons a t ih =>
    cases i with
    | zero =>
      cases j with
      | zero => exact absurd rfl h
      | succ m => rfl
    | succ k =>
      cases j with
      | zero => rfl
      | succ m => exact ih k m (by omega)

theorem getD_map_normalized (l : List Vector3) (j : Nat) (h : j < l.length) :
    (l.map Vector3.normalized).getD j 0 = (l.getD j 0).normalized := by
  induction l generalizing j with
  | nil => simp at h
  | cons a t ih =>
    cases j with
    | zero => rfl
    | succ k => exact ih k (by simpa using h)

theorem getD_replicate_zero (n j : Nat) : (List.replicate n (0 : Vector3)).getD j 0 = 0 := by
  induction n generalizing j with
  | zero => rfl
  | succ m ih =>
    cases j with
    | zero => rfl
    | succ k => exact ih k

theorem resizeVec_length (l : List Vector3) (n : Nat) : (resizeVec l n).length = n := by
  unfold resizeVec
  simp [List.length_take]
  omega

/-! Fold lemmas for the bounds computation. -/

theorem foldl_min_le_init (l : List ℝ) (a : ℝ) : l.foldl min a ≤ a := by
  induction l generalizing a with
  | nil => exact le_refl a
  | cons b t ih => exact le_trans (ih (min a b)) (min_le_left a b)

theorem foldl_min_le_mem (l : List ℝ) (a b : ℝ) (hb : b ∈ l) : l.foldl min a ≤ b := by
  induction l generalizing a with
  | nil => cases hb
  | cons c t ih =>
    rcases List.mem_cons.mp hb with h | h
    · subst h
      exact le_trans (foldl_min_le_init t (min a b)) (min_le_right a b)
    · exact ih (min a c) h

theorem foldl_min_eq_or_mem (l : List ℝ) (a : ℝ) : l.foldl min a = a ∨ l.foldl min a ∈ l := by
  induction l generalizing a with
  | nil => exact Or.inl rfl
  | cons c t ih =>
    rcases ih (min a c) with h | h
    · rcases min_choice a c with hm | hm
      · exact Or.inl (by rw [List.foldl_cons, h, hm])
      · exact Or.inr (by rw [List.foldl_cons, h, hm]; exact List.mem_cons_self c t)
    · exact Or.inr (List.mem_cons_of_mem c h)

theorem foldl_max_le_init (l : List ℝ) (a : ℝ) : a ≤ l.foldl max a := by
  induction l generalizing a with
  | nil => exact le_refl a
  | cons b t ih => exact le_trans (le_max_left a b) (ih (max a b))

theorem foldl_max_le_mem (l : List ℝ) (a b : ℝ) (hb : b ∈ l) : b ≤ l.foldl max a := by
  induction l generalizing a with
  | nil => cases hb
  | cons c t ih =>
    rcases List.mem_cons.mp hb with h | h
    · subst h
      exact le_trans (le_max_right a b) (foldl_max_le_init t (max a b))
    · exact ih (max a c) h

theorem foldl_max_eq_or_mem (l : List ℝ) (a : ℝ) : l.foldl max a = a ∨ l.foldl max a ∈ l := by
  induction l generalizing a with
  | nil => exact Or.inl rfl
  | cons c t ih =>
    rcases ih (max a c) with h | h
    · rcases max_choice a c with hm | hm
      · exact Or.inl (by rw [List.foldl_cons, h, hm])
      · exact Or.inr (by rw [List.foldl_cons, h, hm]; exact List.mem_cons_self c t)
    · exact Or.inr (List.mem_cons_of_mem c h)

theorem boundsFold_min_x (l : List Vector3) (p : Vector3 × Vector3) :
    (l.foldl boundsStep p).1.x = (l.map Vector3.x).foldl min p.1.x := by
  induction l generalizing p with
  | nil => rfl
  | cons v t ih => exact ih (boundsStep p v)

theorem boundsFold_min_y (l : List Vector3) (p : Vector3 × Vector3) :
    (l.foldl boundsStep p).1.y = (l.map Vector3.y).foldl min p.1.y := by
  induction l generalizing p with
  | nil => rfl
  | cons v t ih => exact ih (boundsStep p v)

theorem boundsFold_min_z (l : List Vector3) (p : Vector3 × Vector3) :
    (l.foldl boundsStep p).1.z = (l.map Vector3.z).foldl min p.1.z := by
  induction l generalizing p with
  | nil => rfl
  | cons v t ih => exact ih (boundsStep p v)

theorem boundsFold_max_x (l : List Vector3) (p : Vector3 × Vector3) :
    (l.foldl boundsStep p).2.x = (l.map Vector3.x).foldl max p.2.x := by
  induction l generalizing p with
  | nil => rfl
  | cons v t ih => exact ih (boundsStep p v)

theorem boundsFold_max_y (l : List Vector3) (p : Vector3 × Vector3) :
    (l.foldl boundsStep p).2.y = (l.map Vector3.y).foldl max p.2.y := by
  induction l generalizing p with
  | nil => rfl
  | cons v t ih => exact ih (boundsStep p v)

theorem boundsFold_max_z (l : List Vector3) (p : Vector3 × Vector3) :
    (l.foldl boundsStep p).2.z = (l.map Vector3.z).foldl max p.2.z := by
  induction l generalizing p with
  | nil => rfl
  | cons v t ih => exact ih (boundsStep p v)

/-- Projection form of the nonempty branch of calculateBounds. -/
theorem calcBounds_spec (d : OBJModel) (h : d.vertices.isEmpty = false) :
    d.calculateBounds.minBounds =
      (d.vertices.foldl boundsStep (d.vertices.getD 0 0, d.vertices.getD 0 0)).1 ∧
    d.calculateBounds.maxBounds =
      (d.vertices.foldl boundsStep (d.vertices.getD 0 0, d.vertices.getD 0 0)).2 ∧
    d.calculateBounds.center =
      ⟨(d.calculateBounds.minBounds.x + d.calculateBounds.maxBounds.x) / 2,
       (d.calculateBounds.minBounds.y + d.calculateBounds.maxBounds.y) / 2,
       (d.calculateBounds.minBounds.z + d.calculateBounds.maxBounds.z) / 2⟩ ∧
    d.calculateBounds.boundingRadius =
      (d.calculateBounds.maxBounds - d.calculateBounds.minBounds).length / 2 := by
  unfold OBJModel.calculateBounds
  rw [h]
  exact ⟨rfl, rfl, rfl, rfl⟩

theorem calcBounds_faces (d : OBJModel) : d.calculateBounds.faces = d.faces := by
  unfold OBJModel.calculateBounds
  split <;> rfl

/-- The component-wise bounds of calculateBounds on a nonempty vertex
list: the min and max corners bound every vertex, each of their
components is attained by some vertex, the center is the midpoint and
the radius half the diagonal length. -/
theorem calcBounds_extrema (d : OBJModel) (h : d.vertices ≠ []) :
    (∀ v ∈ d.vertices,
      d.calculateBounds.minBounds.x ≤ v.x ∧ d.calculateBounds.minBounds.y ≤ v.y ∧
      d.calculateBounds.minBounds.z ≤ v.z ∧ v.x ≤ d.calculateBounds.maxBounds.x ∧
      v.y ≤ d.calculateBounds.maxBounds.y ∧ v.z ≤ d.calculateBounds.maxBounds.z) ∧
    ((∃ v ∈ d.vertices, v.x = d.calculateBounds.minBounds.x) ∧
     (∃ v ∈ d.vertices, v.y = d.calculateBounds.minBounds.y) ∧
     (∃ v ∈ d.vertices, v.z = d.calculateBounds.minBounds.z) ∧
     (∃ v ∈ d.vertices, v.x = d.calculateBounds.maxBounds.x) ∧
     (∃ v ∈ d.vertices, v.y = d.calculateBounds.maxBounds.y) ∧
     (∃ v ∈ d.vertices, v.z = d.calculateBounds.maxBounds.z)) ∧
    d.calculateBounds.center =
      ⟨(d.calculateBounds.minBounds.x + d.calculateBounds.maxBounds.x) / 2,
       (d.calculateBounds.minBounds.y + d.calculateBounds.maxBounds.y) / 2,
       (d.calculateBounds.minBounds.z + d.calculateBounds.maxBounds.z) / 2⟩ ∧
    d.calculateBounds.boundingRadius =
      (d.calculateBounds.maxBounds - d.calculateBounds.minBounds).length / 2 := by
  have hne : d.vertices.isEmpty = false := by
    cases hv : d.vertices with
    | nil => exact absurd hv h
    | cons a t => rfl
  obtain ⟨hmin, hmax, hcen, hrad⟩ := calcBounds_spec d hne
  have hv0 := getD_zero_mem d.vertices h
  refine ⟨?_, ⟨?_, ?_, ?_, ?_, ?_, ?_⟩, hcen, hrad⟩
  · intro v hv
    rw [hmin, hmax, boundsFold_min_x, boundsFold_min_y, boundsFold_min_z,
        boundsFold_max_x, boundsFold_max_y, boundsFold_max_z]
    exact ⟨foldl_min_le_mem _ _ _ (List.mem_map_of_mem _ hv),
           foldl_min_le_mem _ _ _ (List.mem_map_of_mem _ hv),
           foldl_min_le_mem _ _ _ (List.mem_map_of_mem _ hv),
           foldl_max_le_mem _ _ _ (List.mem_map_of_mem _ hv),
           foldl_max_le_mem _ _ _ (List.mem_map_of_mem _ hv),
           foldl_max_le_mem _ _ _ (List.mem_map_of_mem _ hv)⟩
  · rw [hmin, boundsFold_min_x]
    rcases foldl_min_eq_or_mem (d.vertices.map Vector3.x) ((d.vertices.getD 0 0).x) with he | hm
    · exact ⟨d.vertices.getD 0 0, hv0, he.symm⟩
    · rcases List.mem_map.mp hm with ⟨v, hv, hvc⟩
      exact ⟨v, hv, hvc⟩
  · rw [hmin, boundsFold_min_y]
    rcases foldl_min_eq_or_mem (d.vertices.map Vector3.y) ((d.vertices.getD 0 0).y) with he | hm
    · exact ⟨d.vertices.getD 0 0, hv0, he.symm⟩
    · rcases List.mem_map.mp hm with ⟨v, hv, hvc⟩
      exact ⟨v, hv, hvc⟩
  · rw [hmin, boundsFold_min_z]
    rcases foldl_min_eq_or_mem (d.vertices.map Vector3.z) ((d.vertices.getD 0 0).z) with he | hm
    · exact ⟨d.vertices.getD 0 0, hv0, he.symm⟩
    · rcases List.mem_map.mp hm with ⟨v, hv, hvc⟩
      exact ⟨v, hv, hvc⟩
  · rw [hmax, boundsFold_max_x]
    rcases foldl_max_eq_or_mem (d.vertices.map Vector3.x) ((d.vertices.getD 0 0).x) with he | hm
    · exact ⟨d.vertices.getD 0 0, hv0, he.symm⟩
    · rcases List.mem_map.mp hm with ⟨v, hv, hvc⟩
      exact ⟨v, hv, hvc⟩
  · rw [hmax, boundsFold_max_y]
    rcases foldl_max_eq_or_mem (d.vertices.map Vector3.y) ((d.vertices.getD 0 0).y) with he | hm
    · exact ⟨d.vertices.getD 0 0, hv0, he.symm⟩
    · rcases List.mem_map.mp hm with ⟨v, hv, hvc⟩
      exact ⟨v, hv, hvc⟩
  · rw [hmax, boundsFold_max_z]
    rcases foldl_max_eq_or_mem (d.vertices.map Vector3.z) ((d.vertices.getD 0 0).z) with he | hm
    · exact ⟨d.vertices.getD 0 0, hv0, he.symm⟩
    · rcases List.mem_map.mp hm with ⟨v, hv, hvc⟩
      exact ⟨v, hv, hvc⟩

/-! Lemmas about the parse loop. -/

theorem addCorner_len (d : OBJModel) (f : Face) (c : CornerTok) :
    (addCorner d f c).vertexIndices.length = f.vertexIndices.length + 1 := by
  simp [addCorner]

theorem cornersFold_len (d : OBJModel) (corners : List CornerTok) (f : Face) :
    ((corners.foldl (addCorner d) f).vertexIndices).length =
      f.vertexIndices.length + corners.length := by
  induction corners generalizing f with
  | nil => simp
  | cons c t ih =>
    rw [List.foldl_cons, ih, addCorner_len, List.length_cons]
    omega

theorem objStep_faces_ge (st : OBJModel × String) (line : ObjLine)
    (h : ∀ f ∈ st.1.faces, 3 ≤ f.vertexIndices.length) :
    ∀ f ∈ (objStep st line).1.faces, 3 ≤ f.vertexIndices.length := by
  cases line with
  | f corners =>
    simp only [objStep]
    split
    · intro g hg
      rcases List.mem_append.mp hg with h1 | h1
      · exact h g h1
      · rw [List.mem_singleton.mp h1]
        assumption
    · exact h
  | v x y z => exact h
  | vn x y z => exact h
  | vt tu tv => exact h
  | mtllib content => cases content <;> exact h
  | usemtl nm => exact h
  | other => exact h

theorem parseFold_faces_ge (lines : List ObjLine) (st : OBJModel × String)
    (h : ∀ f ∈ st.1.faces, 3 ≤ f.vertexIndices.length) :
    ∀ f ∈ (lines.foldl objStep st).1.faces, 3 ≤ f.vertexIndices.length := by
  induction lines generalizing st with
  | nil => exact h
  | cons l t ih => exact ih _ (objStep_faces_ge st l h)

/-! Lemmas about the batch builder. -/

theorem resolveMat_mem (mats : List (String × Material)) (nm : String) (cmd : GLCmd)
    (h : cmd ∈ resolveMat mats nm) : ∃ m, cmd = GLCmd.applyMat m := by
  unfold resolveMat at h
  split at h
  · cases h
  · split at h
    · exact ⟨_, List.mem_singleton.mp h⟩
    · cases h

theorem emitCorner_mem (d : OBJModel) (f : Face) (k : Nat) (cmd : GLCmd)
    (h : cmd ∈ emitCorner d f k) :
    (∃ t, cmd = GLCmd.texCoord t ∧ t ∈ d.texCoords) ∨
    (∃ n, cmd = GLCmd.normal n ∧ n ∈ d.normals) ∨
    (∃ p, cmd = GLCmd.vertex p ∧ p ∈ d.vertices) := by
  unfold emitCorner at h
  rcases List.mem_append.mp h with h1 | h1
  · rcases List.mem_append.mp h1 with h2 | h2
    · split at h2
      case isTrue hc =>
        left
        refine ⟨_, List.mem_singleton.mp h2, getD_mem _ _ _ ?_⟩
        omega
      case isFalse => cases h2
    · split at h2
      case isTrue hc =>
        right; left
        refine ⟨_, List.mem_singleton.mp h2, getD_mem _ _ _ ?_⟩
        omega
      case isFalse => cases h2
  · split at h1
    case isTrue hc =>
      right; right
      refine ⟨_, List.mem_singleton.mp h1, getD_mem _ _ _ ?_⟩
      omega
    case isFalse => cases h1

theorem emitCorner_oob (d : OBJModel) (f : Face) (k : Nat)
    (h : f.vertexIndices.getD k (-1) < 0 ∨
      (d.vertices.length : Int) ≤ f.vertexIndices.getD k (-1)) :
    ∀ p, GLCmd.vertex p ∉ emitCorner d f k := by
  intro p hp
  unfold emitCorner at hp
  rcases List.mem_append.mp hp with h1 | h1
  · rcases List.mem_append.mp h1 with h2 | h2 <;>
      · split at h2
        · exact GLCmd.noConfusion (List.mem_singleton.mp h2)
        · cases h2
  · split at h1
    case isTrue hc => omega
    case isFalse => cases h1

theorem emitFace_mem (d : OBJModel) (f : Face) (cmd : GLCmd)
    (h : cmd ∈ emitFace d f) : ∃ k, cmd ∈ emitCorner d f k := by
  unfold emitFace at h
  split at h
  · cases h
  · rcases List.mem_flatten.mp h with ⟨tri, htri, hcmd⟩
    rcases List.mem_map.mp htri with ⟨i, _, rfl⟩
    rcases List.mem_append.mp hcmd with h1 | h1
    · rcases List.mem_append.mp h1 with h2 | h2
      · exact ⟨0, h2⟩
      · exact ⟨i, h2⟩
    · exact ⟨i + 1, h1⟩

theorem buildBatch_mem (d : OBJModel) (cmd : GLCmd) (h : cmd ∈ buildBatch d) :
    (∃ m, cmd = GLCmd.applyMat m) ∨ ∃ f k, cmd ∈ emitCorner d f k := by
  unfold buildBatch at h
  rcases List.mem_flatten.mp h with ⟨blk, hblk, hcmd⟩
  rcases List.mem_map.mp hblk with ⟨nm, _, rfl⟩
  rcases List.mem_append.mp hcmd with h1 | h1
  · exact Or.inl (resolveMat_mem d.materials nm cmd h1)
  · rcases List.mem_flatten.mp h1 with ⟨cmds, hcmds, hc⟩
    rcases List.mem_map.mp hcmds with ⟨f, _, rfl⟩
    rcases emitFace_mem d f cmd hc with ⟨k, hk⟩
    exact Or.inr ⟨f, k, hk⟩

/-! Lemmas about the normal generator. -/

theorem setVec_length (l : List Vector3) (i : Int) (v : Vector3) :
    (setVec l i v).length = l.length := by
  unfold setVec
  split <;> simp

theorem accumInner_length (w : Vector3) (l : List Int) (ns : List Vector3) :
    (l.foldl (fun ns' idx => setVec ns' idx ((vecAt ns' idx).add w)) ns).length = ns.length := by
  induction l generalizing ns with
  | nil => rfl
  | cons i t ih => rw [List.foldl_cons, ih, setVec_length]

/-- One face's inner accumulation loop adds the face normal to entry j
once per occurrence of j in the index list, and touches nothing else. -/
theorem accumInner_getD (w : Vector3) (l : List Int) (ns : List Vector3) (j : Nat)
    (h : j < ns.length) :
    (l.foldl (fun ns' idx => setVec ns' idx ((vecAt ns' idx).add w)) ns).getD j 0 =
      ns.getD j 0 + (l.count (j : Int)) • w := by
  induction l generalizing ns with
  | nil => simp
  | cons i t ih =>
    rw [List.foldl_cons]
    have hlen : (setVec ns i ((vecAt ns i).add w)).length = ns.length := setVec_length ns i _
    rw [ih _ (by rw [hlen]; exact h)]
    by_cases hij : i = (j : Int)
    · subst hij
      have h0 : (0 : Int) ≤ (j : Int) := Int.natCast_nonneg j
      have hset : setVec ns (j : Int) ((vecAt ns (j : Int)).add w) =
          ns.set j ((vecAt ns (j : Int)).add w) := by
        unfold setVec
        rw [if_pos h0, Int.toNat_natCast]
      have hv : vecAt ns (j : Int) = ns.getD j 0 := by
        unfold vecAt
        rw [if_pos h0, Int.toNat_natCast]
      rw [hset, getD_set_self' _ _ _ _ h, hv, List.count_cons]
      simp only [beq_self_eq_true, if_true, vadd_eq]
      rw [succ_nsmul]
      abel
    · have hset : (setVec ns i ((vecAt ns i).add w)).getD j 0 = ns.getD j 0 := by
        unfold setVec
        split
        case isTrue h0 =>
          apply getD_set_ne'
          omega
        case isFalse => rfl
      rw [hset, List.count_cons]
      have hbeq : (i == (j : Int)) = false := by
        simp [hij]
      rw [hbeq]
      simp

theorem accumFaces_length (vs : List Vector3) (faces : List Face) (ns : List Vector3) :
    (faces.foldl (accumFace vs) ns).length = ns.length := by
  induction faces generalizing ns with
  | nil => rfl
  | cons f t ih =>
    rw [List.foldl_cons, ih]
    unfold accumFace
    split
    · rfl
    · exact accumInner_length _ _ ns

/-- The outer accumulation loop leaves entry j holding its initial value
plus the sum over all faces of the face normal counted once per
occurrence of j in the face's vertex-index list. -/
theorem accumFaces_getD (vs : List Vector3) (faces : List Face) (ns : List Vector3) (j : Nat)
    (h : j < ns.length) :
    (faces.foldl (accumFace vs) ns).getD j 0 =
      ns.getD j 0 + (faces.map (fun f => if f.vertexIndices.length < 3 then 0 else
        (f.vertexIndices.count (j : Int)) • faceNormal vs f)).sum := by
  induction faces generalizing ns with
  | nil => simp
  | cons f t ih =>
    rw [List.foldl_cons, List.map_cons, List.sum_cons]
    by_cases hf : f.vertexIndices.length < 3
    · rw [show accumFace vs ns f = ns from by unfold accumFace; rw [if_pos hf]]
      rw [ih _ h, if_pos hf, zero_add]
    · have hacc : accumFace vs ns f = f.vertexIndices.foldl
          (fun ns' idx => setVec ns' idx ((vecAt ns' idx).add (faceNormal vs f))) ns := by
        unfold accumFace
        rw [if_neg hf]
      rw [hacc, ih _ (by rw [accumInner_length]; exact h),
          accumInner_getD _ _ _ _ h, if_neg hf]
      abel

theorem genNormals_length (d : OBJModel) (hn : d.normals = []) :
    d.generateNormals.normals.length = d.vertices.length := by
  unfold OBJModel.generateNormals
  simp only [List.length_map]
  rw [accumFaces_length, hn]
  unfold resizeVec
  simp

/-- Entry j of the generated normal list is the normalization of the
occurrence-counted sum of face normals over all stored faces. -/
theorem genNormals_getD (d : OBJModel) (hn : d.normals = []) (j : Nat)
    (hj : j < d.vertices.length) :
    d.generateNormals.normals.getD j 0 =
      Vector3.normalized ((d.faces.map (fun f => if f.vertexIndices.length < 3 then 0 else
        (f.vertexIndices.count (j : Int)) • faceNormal d.vertices f)).sum) := by
  have hres : resizeVec d.normals d.vertices.length =
      List.replicate d.vertices.length (0 : Vector3) := by
    rw [hn]
    unfold resizeVec
    simp
  have hlen : (d.faces.foldl (accumFace d.vertices)
      (resizeVec d.normals d.vertices.length)).length = d.vertices.length := by
    rw [accumFaces_length, hres, List.length_replicate]
  unfold OBJModel.generateNormals
  rw [getD_map_normalized _ _ (by rw [hlen]; exact hj)]
  rw [accumFaces_getD _ _ _ _ (by rw [hres, List.length_replicate]; exact hj)]
  rw [hres, getD_replicate_zero, zero_add]

/-! Lemmas about the generated normals of the synthetic quad document. -/

theorem quad_faceNormal : faceNormal exQuadVerts exQuadFace = ⟨0, 0, 1⟩ := by
  have hcross : (Vector3.sub ⟨1, 0, 0⟩ ⟨0, 0, 0⟩).cross (Vector3.sub ⟨1, 1, 0⟩ ⟨0, 0, 0⟩) =
      (⟨0, 0, 1⟩ : Vector3) := by
    ext <;> norm_num [Vector3.sub, Vector3.cross]
  rw [show faceNormal exQuadVerts exQuadFace =
        ((Vector3.sub ⟨1, 0, 0⟩ ⟨0, 0, 0⟩).cross (Vector3.sub ⟨1, 1, 0⟩ ⟨0, 0, 0⟩)).normalized
      from rfl,
    hcross, normalized_unitZ]

theorem zero_add_unitZ : ((0 : Vector3).add ⟨0, 0, 1⟩) = ⟨0, 0, 1⟩ := by
  show Vector3.add Vector3.zero ⟨0, 0, 1⟩ = ⟨0, 0, 1⟩
  ext <;> norm_num [Vector3.add, Vector3.zero]

theorem quad_normals :
    (OBJModel.load exQuadLines).normals = [⟨0, 0, 1⟩, ⟨0, 0, 1⟩, ⟨0, 0, 1⟩, ⟨0, 0, 1⟩] := by
  have key : (OBJModel.load exQuadLines).normals =
      [((0 : Vector3).add (faceNormal exQuadVerts exQuadFace)).normalized,
       ((0 : Vector3).add (faceNormal exQuadVerts exQuadFace)).normalized,
       ((0 : Vector3).add (faceNormal exQuadVerts exQuadFace)).normalized,
       ((0 : Vector3).add (faceNormal exQuadVerts exQuadFace)).normalized] := rfl
  rw [key, quad_faceNormal, zero_add_unitZ, normalized_unitZ]

/-! A lemma about the binary loader. -/

theorem buildDisplayList_isLoaded (m : Model3DS) :
    (Model3DS.buildDisplayList m).isLoaded = m.isLoaded := by
  unfold Model3DS.buildDisplayList
  split <;> rfl

/-! Lemmas about the access set of the normal generator. -/

theorem accessesFold_sub (faces : List Face) (acc : List Int) (i : Int)
    (h : i ∈ faces.foldl
      (fun a f => if f.vertexIndices.length < 3 then a else a ++ f.vertexIndices) acc) :
    i ∈ acc ∨ ∃ f ∈ faces, i ∈ f.vertexIndices := by
  induction faces generalizing acc with
  | nil => exact Or.inl h
  | cons f t ih =>
    rw [List.foldl_cons] at h
    rcases ih _ h with h1 | h1
    · by_cases hf : f.vertexIndices.length < 3
      · rw [if_pos hf] at h1
        exact Or.inl h1
      · rw [if_neg hf] at h1
        rcases List.mem_append.mp h1 with h2 | h2
        · exact Or.inl h2
        · exact Or.inr ⟨f, List.mem_cons_self f t, h2⟩
    · rcases h1 with ⟨g, hg, hi⟩
      exact Or.inr ⟨g, List.mem_cons_of_mem f hg, hi⟩

/-! The claims. -/

/-- Claim C1, as stated, is false on the code: the empty input file parses
to a document with zero vertices, yet OBJModel::load marks it loaded and
builds its display list. -/
theorem claim_C1_counterexample :
    (OBJModel.load []).vertices = [] ∧ (OBJModel.load []).isLoaded = true ∧
    (OBJModel.load []).hasDisplayList = true :=
  ⟨rfl, rfl, rfl⟩

/-- Claim C1 (amended): whenever parsing completes, even with zero
vertices, the document is marked loaded and the post-processing pipeline
runs (the display list is built); likewise the binary loader marks any
document whose leading tag is MAIN3DS loaded and reports success. -/
theorem claim_C1 :
    (∀ lines : List ObjLine,
      (OBJModel.load lines).isLoaded = true ∧ (OBJModel.load lines).hasDisplayList = true) ∧
    (∀ (dec : Nat → ℝ) (data : List Nat) (m : Model3DS), readShortAt data 0 = MAIN3DS →
      (Model3DS.load dec data m).1.isLoaded = true ∧ (Model3DS.load dec data m).2 = true) := by
  refine ⟨fun lines => ⟨rfl, rfl⟩, fun dec data m h => ?_⟩
  unfold Model3DS.load
  rw [if_neg (not_not_intro h)]
  rw [buildDisplayList_isLoaded]
  exact ⟨rfl, rfl⟩

/-- Witness for the 3DS half of the amended claim C1 at a concrete
header-only file. -/
theorem claim_C1_witness :
    readShortAt exGood3DSData 0 = MAIN3DS ∧
    ((Model3DS.load exDec exGood3DSData Model3DS.init).1.isLoaded = true ∧
     (Model3DS.load exDec exGood3DSData Model3DS.init).2 = true) :=
  ⟨by decide, claim_C1.2 exDec exGood3DSData Model3DS.init (by decide)⟩

/-- Claim C2: when the parser leaves the normal list empty, the normal
generator produces one normal per vertex, entry j being the normalization
of the sum over all stored faces of normalize(cross(v1 - v0, v2 - v0))
added once per occurrence of j among the face's vertex indices; every
face's normal-index list afterwards equals its vertex-index list; and the
synthetic 4-vertex one-quad document yields exactly 4 normals, each of
unit length (every vertex there belongs to the quad). -/
theorem claim_C2 :
    (∀ d : OBJModel, d.normals = [] →
      d.generateNormals.normals.length = d.vertices.length ∧
      ∀ j : Nat, j < d.vertices.length →
        d.generateNormals.normals.getD j 0 =
          Vector3.normalized ((d.faces.map (fun f => if f.vertexIndices.length < 3 then 0 else
            (f.vertexIndices.count (j : Int)) • faceNormal d.vertices f)).sum)) ∧
    (∀ d : OBJModel, d.generateNormals.faces.map Face.normalIndices =
      d.generateNormals.faces.map Face.vertexIndices) ∧
    (OBJModel.load exQuadLines).normals = [⟨0, 0, 1⟩, ⟨0, 0, 1⟩, ⟨0, 0, 1⟩, ⟨0, 0, 1⟩] ∧
    (∀ n ∈ (OBJModel.load exQuadLines).normals, n.length = 1) := by
  refine ⟨fun d hn => ⟨genNormals_length d hn, fun j hj => genNormals_getD d hn j hj⟩,
          fun d => ?_, quad_normals, ?_⟩
  · simp only [OBJModel.generateNormals, List.map_map]
    rfl
  · rw [quad_normals]
    intro n hn
    have hn' : n = ⟨0, 0, 1⟩ := by
      rcases List.mem_cons.mp hn with h | h
      · exact h
      rcases List.mem_cons.mp h with h | h
      · exact h
      rcases List.mem_cons.mp h with h | h
      · exact h
      rcases List.mem_cons.mp h with h | h
      · exact h
      cases h
    rw [hn']
    unfold Vector3.length
    norm_num

/-- Witness for claim C2 at a concrete triangle document. -/
theorem claim_C2_witness :
    exTriDoc.normals = [] ∧ 0 < exTriDoc.vertices.length ∧
    exTriDoc.generateNormals.normals.length = exTriDoc.vertices.length ∧
    exTriDoc.generateNormals.normals.getD 0 0 =
      Vector3.normalized ((exTriDoc.faces.map (fun f =>
        if f.vertexIndices.length < 3 then 0 else
          (f.vertexIndices.count ((0 : Nat) : Int)) • faceNormal exTriDoc.vertices f)).sum) :=
  ⟨rfl, by decide, (claim_C2.1 exTriDoc rfl).1, (claim_C2.1 exTriDoc rfl).2 0 (by decide)⟩

/-- Claim C3: a negative corner index N resolves to
current count + N + 1 before the 1-based-to-0-based conversion, and the
face line f -1 -2 -3 after three v lines stores the 0-based vertex
indices (2, 1, 0). -/
theorem claim_C3 :
    (∀ (count : Nat) (i : Int), i < 0 → resolveIdx count i = (count : Int) + i + 1) ∧
    (OBJModel.load exNegLines).faces.map Face.vertexIndices = [[2, 1, 0]] := by
  constructor
  · intro count i h
    unfold resolveIdx
    rw [if_pos h]
  · decide

/-- Witness for claim C3 at the concrete index -1 against 3 vertices. -/
theorem claim_C3_witness :
    (-1 : Int) < 0 ∧ resolveIdx 3 (-1) = ((3 : Nat) : Int) + (-1) + 1 :=
  ⟨by decide, claim_C3.1 3 (-1) (by decide)⟩

/-- Claim C4: every face with at least three corners is fan-triangulated
from corner 0, emitting for i from 1 to corner count - 2 the corners
(0, i, i+1); concretely, a five-corner face over distinct positions
A, B, C, D, E batches to exactly the triangles (A,B,C), (A,C,D), (A,D,E)
in that order. -/
theorem claim_C4 :
    (∀ (d : OBJModel) (f : Face), 3 ≤ f.vertexIndices.length →
      emitFace d f = ((List.range' 1 (f.vertexIndices.length - 2)).map (fun i =>
        emitCorner d f 0 ++ emitCorner d f i ++ emitCorner d f (i + 1))).flatten) ∧
    buildBatch exPentaDoc =
      [GLCmd.vertex ⟨0, 0, 0⟩, GLCmd.vertex ⟨1, 0, 0⟩, GLCmd.vertex ⟨2, 0, 0⟩,
       GLCmd.vertex ⟨0, 0, 0⟩, GLCmd.vertex ⟨2, 0, 0⟩, GLCmd.vertex ⟨3, 0, 0⟩,
       GLCmd.vertex ⟨0, 0, 0⟩, GLCmd.vertex ⟨3, 0, 0⟩, GLCmd.vertex ⟨4, 0, 0⟩] := by
  constructor
  · intro d f h
    unfold emitFace
    rw [if_neg (by omega)]
  · rfl

/-- Witness for claim C4 at the concrete five-corner face. -/
theorem claim_C4_witness :
    3 ≤ exPentaFace.vertexIndices.length ∧
    emitFace exPentaDoc exPentaFace =
      ((List.range' 1 (exPentaFace.vertexIndices.length - 2)).map (fun i =>
        emitCorner exPentaDoc exPentaFace 0 ++ emitCorner exPentaDoc exPentaFace i ++
        emitCorner exPentaDoc exPentaFace (i + 1))).flatten :=
  ⟨by decide, claim_C4.1 exPentaDoc exPentaFace (by decide)⟩

/-- Claim C5: a 3DS file whose leading 2-byte tag is not MAIN3DS makes
the binary loader report failure immediately, leaving the fresh document
with zero vertices and not loaded. -/
theorem claim_C5 (dec : Nat → ℝ) (data : List Nat)
    (h : readShortAt data 0 ≠ MAIN3DS) :
    (Model3DS.load dec data Model3DS.init).2 = false ∧
    (Model3DS.load dec data Model3DS.init).1.vertices = [] ∧
    (Model3DS.load dec data Model3DS.init).1.isLoaded = false := by
  unfold Model3DS.load
  rw [if_pos h]
  exact ⟨rfl, rfl, rfl⟩

/-- Witness for claim C5 at a six-zero-byte file. -/
theorem claim_C5_witness :
    readShortAt exBad3DSData 0 ≠ MAIN3DS ∧
    ((Model3DS.load exDec exBad3DSData Model3DS.init).2 = false ∧
     (Model3DS.load exDec exBad3DSData Model3DS.init).1.vertices = [] ∧
     (Model3DS.load exDec exBad3DSData Model3DS.init).1.isLoaded = false) :=
  ⟨by decide, claim_C5 exDec exBad3DSData (by decide)⟩

/-- Claim C6: the bounds calculator leaves an empty-vertex document
untouched; otherwise min and max are the componentwise extrema over all
vertices, center the midpoint and radius half the diagonal length; the
three-vertex example gives min (0,0,0), max (2,2,0), center (1,1,0) and
radius length (2,2,0) / 2. -/
theorem claim_C6 :
    (∀ d : OBJModel, d.vertices = [] → d.calculateBounds = d) ∧
    (∀ d : OBJModel, d.vertices ≠ [] →
      (∀ v ∈ d.vertices,
        d.calculateBounds.minBounds.x ≤ v.x ∧ d.calculateBounds.minBounds.y ≤ v.y ∧
        d.calculateBounds.minBounds.z ≤ v.z ∧ v.x ≤ d.calculateBounds.maxBounds.x ∧
        v.y ≤ d.calculateBounds.maxBounds.y ∧ v.z ≤ d.calculateBounds.maxBounds.z) ∧
      ((∃ v ∈ d.vertices, v.x = d.calculateBounds.minBounds.x) ∧
       (∃ v ∈ d.vertices, v.y = d.calculateBounds.minBounds.y) ∧
       (∃ v ∈ d.vertices, v.z = d.calculateBounds.minBounds.z) ∧
       (∃ v ∈ d.vertices, v.x = d.calculateBounds.maxBounds.x) ∧
       (∃ v ∈ d.vertices, v.y = d.calculateBounds.maxBounds.y) ∧
       (∃ v ∈ d.vertices, v.z = d.calculateBounds.maxBounds.z)) ∧
      d.calculateBounds.center =
        ⟨(d.calculateBounds.minBounds.x + d.calculateBounds.maxBounds.x) / 2,
         (d.calculateBounds.minBounds.y + d.calculateBounds.maxBounds.y) / 2,
         (d.calculateBounds.minBounds.z + d.calculateBounds.maxBounds.z) / 2⟩ ∧
      d.calculateBounds.boundingRadius =
        (d.calculateBounds.maxBounds - d.calculateBounds.minBounds).length / 2) ∧
    (exBoundsDoc.calculateBounds.minBounds = ⟨0, 0, 0⟩ ∧
     exBoundsDoc.calculateBounds.maxBounds = ⟨2, 2, 0⟩ ∧
     exBoundsDoc.calculateBounds.center = ⟨1, 1, 0⟩ ∧
     exBoundsDoc.calculateBounds.boundingRadius = Vector3.length ⟨2, 2, 0⟩ / 2) := by
  refine ⟨fun d h => by simp [OBJModel.calculateBounds, h],
          fun d h => calcBounds_extrema d h, ?_⟩
  unfold exBoundsDoc OBJModel.calculateBounds
  refine ⟨?_, ?_, ?_, ?_⟩ <;>
    · simp only [OBJModel.init, boundsStep, List.foldl_cons, List.foldl_nil, List.getD]
      first
      | (ext <;> norm_num)
      | (norm_num [vsub_def, Vector3.length])

/-- Witness for claim C6: the empty branch at the fresh document and the
center equation at the three-vertex example. -/
theorem claim_C6_witness :
    OBJModel.init.vertices = [] ∧ OBJModel.init.calculateBounds = OBJModel.init ∧
    exBoundsDoc.vertices ≠ [] ∧
    exBoundsDoc.calculateBounds.center =
      ⟨(exBoundsDoc.calculateBounds.minBounds.x + exBoundsDoc.calculateBounds.maxBounds.x) / 2,
       (exBoundsDoc.calculateBounds.minBounds.y + exBoundsDoc.calculateBounds.maxBounds.y) / 2,
       (exBoundsDoc.calculateBounds.minBounds.z + exBoundsDoc.calculateBounds.maxBounds.z) / 2⟩ :=
  ⟨rfl, claim_C6.1 OBJModel.init rfl, fun hc => List.noConfusion hc,
   (claim_C6.2.1 exBoundsDoc (fun hc => List.noConfusion hc)).2.2.1⟩

/-- Claim C7: every face stored by the text parser has at least three
corners, and a face line with fewer than three corner tokens leaves the
parse state unchanged. -/
theorem claim_C7 :
    (∀ lines : List ObjLine, ∀ f ∈ (OBJModel.load lines).faces, 3 ≤ f.vertexIndices.length) ∧
    (∀ (st : OBJModel × String) (corners : List CornerTok), corners.length < 3 →
      objStep st (ObjLine.f corners) = st) := by
  constructor
  · intro lines f hf
    have hd1 : ∀ g ∈ ((lines.foldl objStep (OBJModel.init, "")).1).calculateBounds.faces,
        3 ≤ g.vertexIndices.length := by
      rw [calcBounds_faces]
      exact parseFold_faces_ge lines (OBJModel.init, "") (by intro g hg; cases hg)
    simp only [OBJModel.load, OBJModel.createDisplayList] at hf
    by_cases hni : ((lines.foldl objStep (OBJModel.init, "")).1).calculateBounds.normals.isEmpty
    · rw [if_pos hni] at hf
      simp only [OBJModel.generateNormals] at hf
      rcases List.mem_map.mp hf with ⟨g, hg, rfl⟩
      exact hd1 g hg
    · rw [if_neg hni] at hf
      exact hd1 f hf
  · intro st corners hc
    simp only [objStep]
    rw [if_neg (by rw [cornersFold_len]; simpa using by omega)]

/-- Witness for claim C7 at the parsed negative-index document and the
empty face line. -/
theorem claim_C7_witness :
    exNegFace ∈ (OBJModel.load exNegLines).faces ∧ 3 ≤ exNegFace.vertexIndices.length ∧
    objStep (OBJModel.init, "") (ObjLine.f []) = (OBJModel.init, "") :=
  ⟨by decide, claim_C7.1 exNegLines exNegFace (by decide),
   claim_C7.2 (OBJModel.init, "") [] (by decide)⟩

/-- Claim C8: every attribute the batch builder emits comes from inside
the corresponding array, for every document including ones with
out-of-range face indices, and a corner whose vertex index is out of
range contributes no vertex command at all. -/
theorem claim_C8 :
    (∀ (d : OBJModel) (cmd : GLCmd), cmd ∈ buildBatch d →
      (∀ p, cmd = GLCmd.vertex p → p ∈ d.vertices) ∧
      (∀ n, cmd = GLCmd.normal n → n ∈ d.normals) ∧
      (∀ t, cmd = GLCmd.texCoord t → t ∈ d.texCoords)) ∧
    (∀ (d : OBJModel) (f : Face) (k : Nat),
      (f.vertexIndices.getD k (-1) < 0 ∨
        (d.vertices.length : Int) ≤ f.vertexIndices.getD k (-1)) →
      ∀ p, GLCmd.vertex p ∉ emitCorner d f k) := by
  constructor
  · intro d cmd hmem
    rcases buildBatch_mem d cmd hmem with ⟨m, rfl⟩ | ⟨f, k, hk⟩
    · exact ⟨fun p heq => GLCmd.noConfusion heq, fun n heq => GLCmd.noConfusion heq,
             fun t heq => GLCmd.noConfusion heq⟩
    · rcases emitCorner_mem d f k cmd hk with ⟨t, rfl, ht⟩ | ⟨n, rfl, hn⟩ | ⟨p, rfl, hp⟩
      · exact ⟨fun p heq => GLCmd.noConfusion heq, fun n heq => GLCmd.noConfusion heq,
               fun t' heq => by cases heq; exact ht⟩
      · exact ⟨fun p heq => GLCmd.noConfusion heq, fun n' heq => by cases heq; exact hn,
               fun t heq => GLCmd.noConfusion heq⟩
      · exact ⟨fun p' heq => by cases heq; exact hp, fun n heq => GLCmd.noConfusion heq,
               fun t heq => GLCmd.noConfusion heq⟩
  · exact emitCorner_oob

/-- Witness for claim C8 at a document whose single face reads beyond the
vertex list. -/
theorem claim_C8_witness :
    GLCmd.vertex ⟨0, 0, 0⟩ ∈ buildBatch exOobDoc ∧
    (⟨0, 0, 0⟩ : Vector3) ∈ exOobDoc.vertices ∧
    (exOobFace.vertexIndices.getD 0 (-1) < 0 ∨
      (exOobDoc.vertices.length : Int) ≤ exOobFace.vertexIndices.getD 0 (-1)) ∧
    GLCmd.vertex ⟨9, 9, 9⟩ ∉ emitCorner exOobDoc exOobFace 0 := by
  have hmem : GLCmd.vertex (⟨0, 0, 0⟩ : Vector3) ∈ buildBatch exOobDoc := by
    rw [show buildBatch exOobDoc = [GLCmd.vertex ⟨0, 0, 0⟩] from rfl]
    exact List.mem_singleton.mpr rfl
  have hside : exOobFace.vertexIndices.getD 0 (-1) < 0 ∨
      (exOobDoc.vertices.length : Int) ≤ exOobFace.vertexIndices.getD 0 (-1) := by
    right
    decide
  exact ⟨hmem, (claim_C8.1 exOobDoc _ hmem).1 _ rfl, hside,
         claim_C8.2 exOobDoc exOobFace 0 hside ⟨9, 9, 9⟩⟩

/-- Claim C9: while a material is current, a d line stores its value as
the transparency and a Tr line stores one minus its value, both also
writing the stored value into the diffuse and ambient alpha channels;
Tr 0.3 stores 0.7 and d 0.7 stores 0.7. -/
theorem claim_C9 :
    (∀ (m : Material) (v : ℝ),
      (mtlApply (MtlLine.d v) m).transparency = v ∧
      (mtlApply (MtlLine.d v) m).diffuse.a = v ∧
      (mtlApply (MtlLine.d v) m).ambient.a = v ∧
      (mtlApply (MtlLine.tr v) m).transparency = 1 - v ∧
      (mtlApply (MtlLine.tr v) m).diffuse.a = 1 - v ∧
      (mtlApply (MtlLine.tr v) m).ambient.a = 1 - v) ∧
    (∃ mat, mapFind (loadMTL [] exTrLines) "m" = some mat ∧
      mat.transparency = 0.7 ∧ mat.diffuse.a = 0.7 ∧ mat.ambient.a = 0.7) ∧
    (∃ mat, mapFind (loadMTL [] exDLines) "m" = some mat ∧
      mat.transparency = 0.7 ∧ mat.diffuse.a = 0.7 ∧ mat.ambient.a = 0.7) := by
  refine ⟨fun m v => ⟨rfl, rfl, rfl, rfl, rfl, rfl⟩, ?_, ?_⟩
  · refine ⟨mtlApply (MtlLine.tr 0.3) { Material.init with name := "m" }, rfl, ?_, ?_, ?_⟩ <;>
      · simp only [mtlApply]
        norm_num
  · exact ⟨mtlApply (MtlLine.d 0.7) { Material.init with name := "m" }, rfl, rfl, rfl, rfl⟩

/-- Claim C10: under the precondition that every stored face's vertex
indices are within the vertex count, every index generateNormals
subscripts is in bounds for both the vertex array and the resized normal
array, and the function changes only the normal list and the per-face
normal-index lists, leaving vertices, texcoords, materials and the
per-face vertex-index and texcoord-index lists unchanged. -/
theorem claim_C10 (d : OBJModel)
    (h : ∀ f ∈ d.faces, ∀ i ∈ f.vertexIndices, 0 ≤ i ∧ i < (d.vertices.length : Int)) :
    (∀ i ∈ generateNormalsAccesses d,
      0 ≤ i ∧ i < (d.vertices.length : Int) ∧
      i < ((resizeVec d.normals d.vertices.length).length : Int)) ∧
    d.generateNormals.vertices = d.vertices ∧
    d.generateNormals.texCoords = d.texCoords ∧
    d.generateNormals.materials = d.materials ∧
    d.generateNormals.faces.map Face.vertexIndices = d.faces.map Face.vertexIndices ∧
    d.generateNormals.faces.map Face.texCoordIndices = d.faces.map Face.texCoordIndices ∧
    d.generateNormals.faces.map Face.materialName = d.faces.map Face.materialName ∧
    d.generateNormals.faces.map Face.normalIndices = d.faces.map Face.vertexIndices := by
  refine ⟨?_, rfl, rfl, rfl, ?_, ?_, ?_, ?_⟩
  · intro i hi
    rcases accessesFold_sub d.faces [] i hi with h1 | ⟨f, hf, hif⟩
    · cases h1
    · rcases h f hf i hif with ⟨h0, hlt⟩
      rw [resizeVec_length]
      exact ⟨h0, hlt, hlt⟩
  all_goals
    simp only [OBJModel.generateNormals, List.map_map]
    rfl

/-- Witness for claim C10 at the concrete triangle document. -/
theorem claim_C10_witness :
    (∀ f ∈ exTriDoc.faces, ∀ i ∈ f.vertexIndices,
      0 ≤ i ∧ i < (exTriDoc.vertices.length : Int)) ∧
    exTriDoc.generateNormals.vertices = exTriDoc.vertices ∧
    exTriDoc.generateNormals.faces.map Face.normalIndices =
      exTriDoc.faces.map Face.vertexIndices :=
  ⟨by decide, (claim_C10 exTriDoc (by decide)).2.1,
   (claim_C10 exTriDoc (by decide)).2.2.2.2.2.2.2⟩

end

end CrystalCaves
